import Mathlib

/-!
Shallow embedding of the Imaginate portal's two context providers
(`src/src/contexts/AuthContext.tsx` and `src/src/contexts/ImageContext.tsx`,
the canonical variants per spec section 9) together with the abstract
external collaborators of spec section 6 (Account Service, Profile Store,
Object Store, Asset Ledger).

Modelling conventions:
- Timestamps (ISO-8601 strings in the code) are modelled as naturals; the
  string order used by the ledger's `created_at` ordering is isomorphic to
  the numeric time order.
- External calls are modelled by explicit outcome parameters (oracles):
  a profile fetch is a function `String → Option DbProfile`, a signed-URL
  resolution is `String → Option String`, remote errors are `Option String`
  carrying the message, and so on.
- User-facing notifications (the `toast` calls) are collected in an emitted
  list of `Toast` values, in program order.
-/

/-- A user-facing notification emitted via `toast.success` / `toast.error`. -/
inductive Toast
  | success (msg : String)
  | error (msg : String)
deriving DecidableEq, Repr

/- ----------------------------------------------------------------
   Auth side: data model (src/src/types/database.ts and AuthContext.tsx)
   ---------------------------------------------------------------- -/

/-- A row of the external Profile Store (`profiles` table), snake_case
fields as selected by `fetchUserProfile`. Nullable columns are `Option`. -/
structure DbProfile where
  id : String
  name : Option String
  avatar_url : Option String
  bio : Option String
  website : Option String
  location : Option String
  subscription_tier : Option String
  credits : Option Int
  last_login : Option Nat
  created_at : Option Nat
deriving DecidableEq, Repr

/-- The `AuthUser` type of AuthContext.tsx: the `Profile` model of
`src/src/types/database.ts` extended with the account email. -/
structure AuthUser where
  id : String
  email : String
  name : Option String
  avatarUrl : Option String
  bio : Option String
  website : Option String
  location : Option String
  subscriptionTier : Option String
  credits : Option Int
  lastLogin : Option Nat
  createdAt : Option Nat
deriving DecidableEq, Repr

/-- The identity data carried by the external session (`Session.user`):
account id, email, and the `user_metadata.name` field. -/
structure SessionUser where
  id : String
  email : Option String
  metadataName : Option String
deriving DecidableEq, Repr

/-- The state owned by the `AuthProvider`: the cached `user` projection,
the `isLoading` flag and the cached `session`. -/
structure AuthState where
  user : Option AuthUser
  isLoading : Bool
  session : Option SessionUser
deriving DecidableEq, Repr

/-- `mapDbProfileToProfile` of `src/src/types/database.ts`, combined with
the `email: authUser.email || ''` spread of `setUserWithProfile`. -/
def profileToAuthUser (row : DbProfile) (su : SessionUser) : AuthUser :=
  { id := row.id
    email := su.email.getD ""
    name := row.name
    avatarUrl := row.avatar_url
    bio := row.bio
    website := row.website
    location := row.location
    subscriptionTier := row.subscription_tier
    credits := row.credits
    lastLogin := row.last_login
    createdAt := row.created_at }

/-- The fallback `AuthUser` built in `setUserWithProfile` when no profile
row is found: auth data only, with the safe placeholder profile fields
(`subscriptionTier: 'free'`, `credits: 10`). `user_metadata?.name || 'User'`
falls back on a missing or empty metadata name. -/
def fallbackAuthUser (su : SessionUser) : AuthUser :=
  { id := su.id
    email := su.email.getD ""
    name := some (match su.metadataName with
      | some n => if n = "" then "User" else n
      | none => "User")
    avatarUrl := none
    bio := none
    website := none
    location := none
    subscriptionTier := some "free"
    credits := some 10
    lastLogin := none
    createdAt := none }

/-- `setUserWithProfile` of AuthContext.tsx. The profile fetch oracle
returns `none` both when the row is missing and when the fetch errors:
`fetchUserProfile` returns `null` in both of those branches. -/
def setUserWithProfile (profiles : String → Option DbProfile)
    (su : SessionUser) (s : AuthState) : AuthState :=
  match profiles su.id with
  | some row => { s with user := some (profileToAuthUser row su) }
  | none => { s with user := some (fallbackAuthUser su) }

/-- `refreshUser` of AuthContext.tsx. Returns the new state together with
the number of Profile Store fetches performed (0 when there is no session:
the function returns before any network call). -/
def refreshUser (s : AuthState) (profiles : String → Option DbProfile) :
    AuthState × Nat :=
  match s.session with
  | none => (s, 0)
  | some su => (setUserWithProfile profiles su s, 1)

/-- `logout` of AuthContext.tsx. `signOutError` is the error returned by
the remote `supabase.auth.signOut()` call (`none` on success). Returns the
new state, the emitted toasts, and whether the operation re-threw. On a
remote error the function throws before ever reaching `setUser(null)`;
the `finally` block still clears `isLoading`. -/
def logout (s : AuthState) (signOutError : Option String) :
    AuthState × List Toast × Bool :=
  match signOutError with
  | none =>
      ({ s with user := none, isLoading := false },
       [Toast.success "Logged out successfully!"], false)
  | some msg =>
      ({ s with isLoading := false }, [Toast.error msg], true)

/-- Substring test used to classify login error messages
(`error.message.includes(...)`). -/
def strContains (s pat : String) : Bool :=
  (s.splitOn pat).length != 1

/-- The error-message classification of `login` in AuthContext.tsx. -/
def classifyLoginError (msg : String) : String :=
  if strContains msg "Invalid login credentials" then
    "Invalid email or password. Please check your credentials and try again."
  else if strContains msg "Email not confirmed" then
    "Please confirm your email address before logging in. Check your inbox for a confirmation link."
  else msg

/-- Outcome of the remote `signInWithPassword` call. -/
inductive LoginResult
  | ok
  | err (msg : String)
deriving DecidableEq, Repr

/-- `login` of AuthContext.tsx. On success the last-login stamp update is
best-effort with its own swallow-all handler and the success toast is
emitted; on a remote error the classified message is toasted and the error
re-thrown. `login` itself never sets `user` (that arrives asynchronously
via the auth change listener). Returns state, toasts, and whether it threw. -/
def login (s : AuthState) (r : LoginResult) : AuthState × List Toast × Bool :=
  match r with
  | .ok =>
      ({ s with isLoading := false },
       [Toast.success "Logged in successfully!"], false)
  | .err msg =>
      ({ s with isLoading := false },
       [Toast.error (classifyLoginError msg)], true)

/-- Outcome of the remote `signUp` call. Per the Account Service contract
(spec section 6, `signUp -> Account|Error`) a non-error response carries an
account, so the code's `if (data.user)` guard is taken on every success;
`identitiesEmpty` models `data.user.identities.length === 0` and
`confirmed` models `data.user.confirmed_at` being set. -/
inductive SignupResult
  | ok (identitiesEmpty : Bool) (confirmed : Bool)
  | err (msg : String)
deriving DecidableEq, Repr

/-- `signup` of AuthContext.tsx: the emitted toasts and whether it threw. -/
def signup (r : SignupResult) : List Toast × Bool :=
  match r with
  | .err msg => ([Toast.error msg], true)
  | .ok identitiesEmpty confirmed =>
      if identitiesEmpty then
        ([Toast.error "This email is already registered. Please try logging in instead."], false)
      else if confirmed then
        ([Toast.success "Account created successfully!"], false)
      else
        ([Toast.success "Account created successfully! Please check your email for verification."], false)

/- ----------------------------------------------------------------
   Image side: data model (src/src/contexts/ImageContext.tsx)
   ---------------------------------------------------------------- -/

/-- The `GeneratedImage` type exported by ImageContext.tsx. -/
structure GeneratedImage where
  id : String
  prompt : String
  imageUrl : String
  createdAt : Nat
deriving DecidableEq, Repr

/-- A row of the Asset Ledger (`images` table). -/
structure ImageRow where
  id : String
  prompt : String
  storage_path : String
  user_id : String
  created_at : Nat
deriving DecidableEq, Repr

/-- The durable backend: Asset Ledger rows plus the Object Store paths. -/
structure Db where
  images : List ImageRow
  storage : List String
deriving DecidableEq, Repr

/-- The state owned by the `ImageProvider`. -/
structure ImageState where
  generatedImages : List GeneratedImage
  isGenerating : Bool
  history : List GeneratedImage
deriving DecidableEq, Repr

/-- Insert a row into a list kept in descending `created_at` order. -/
def insertDesc (r : ImageRow) : List ImageRow → List ImageRow
  | [] => [r]
  | x :: xs =>
      if r.created_at ≤ x.created_at then x :: insertDesc r xs
      else r :: x :: xs

/-- Sort rows by `created_at` descending (newest first): the semantics of
the ledger query's `order('created_at', { ascending: false })` clause. -/
def sortDesc (l : List ImageRow) : List ImageRow :=
  l.foldr insertDesc []

/-- The `from('images').select('*').order('created_at', ascending: false)`
query of `loadUserImages`. The client sends no explicit user filter; row
visibility is scoped per user by the external service (spec section 6:
`listByUser(userId, orderBy=createdAt desc)`), modelled by the filter. -/
def selectImagesDesc (db : Db) (uid : String) : List ImageRow :=
  sortDesc (db.images.filter (fun r => r.user_id == uid))

/-- Resolution of one ledger row to a displayable `GeneratedImage` in
`loadUserImages`: a signed URL when `createSignedUrl` succeeds, the
`/placeholder.svg` fallback for that row when it errors. -/
def formatRow (resolve : String → Option String) (r : ImageRow) :
    GeneratedImage :=
  match resolve r.storage_path with
  | some u => { id := r.id, prompt := r.prompt, imageUrl := u, createdAt := r.created_at }
  | none => { id := r.id, prompt := r.prompt, imageUrl := "/placeholder.svg", createdAt := r.created_at }

/-- `loadUserImages` of ImageContext.tsx. `selectOk` is the outcome of the
ledger select; on failure the state is left unchanged and an error toast
is emitted, on success the history is replaced (no toast). -/
def loadUserImages (db : Db) (uid : String) (resolve : String → Option String)
    (selectOk : Bool) (st : ImageState) : ImageState × List Toast :=
  if selectOk then
    ({ st with history := (selectImagesDesc db uid).map (formatRow resolve) }, [])
  else
    (st, [Toast.error "Failed to load your images."])

/-- The `!prompt.trim()` blank-prompt guard of `generateImage`: JS `trim()`
yields the empty string exactly when every character of the prompt is
whitespace (or the prompt is empty). -/
def isBlank (s : String) : Bool := s.data.all Char.isWhitespace

/-- The unsplash source URL built by `generateImage`:
`...?category,prompt-words-joined-by-commas&sig=seed&t=timestamp`. -/
def buildImageUrl (prompt category : String) (seed t : Nat) : String :=
  "https://source.unsplash.com/featured/800x800/?" ++ category ++ ","
    ++ String.intercalate "," (prompt.splitOn " ")
    ++ "&sig=" ++ toString seed ++ "&t=" ++ toString t

/-- Outcome of the best-effort persistence block of `generateImage`
(blob fetch, Object Store upload, ledger insert, signed-URL issuance).
On success the inserted row's id and the signed URL are returned. The
single catch may fire after any prefix of those remote effects, so the
failure case carries the backend state it leaves behind. -/
inductive PersistOutcome
  | ok (rowId : String) (signedUrl : String)
  | fail (dbAfter : Db)
deriving DecidableEq, Repr

/-- Whether the persistence block failed. -/
def PersistOutcome.failed : PersistOutcome → Bool
  | .ok _ _ => false
  | .fail _ => true

/-- The non-deterministic environment of one `generateImage` call: the
current time, the random category and seed, whether the image pre-load
resolved before the 15s timeout (the silent in-place fallback retry keeps
the original URL, so a late success still resolves with it), the
persistence outcome, and the signed-URL oracle plus select outcome for the
history reload performed after a successful persist. -/
structure GenEnv where
  now : Nat
  category : String
  seed : Nat
  preloadOk : Bool
  persist : PersistOutcome
  resolve : String → Option String
  reloadOk : Bool

/-- `generateImage` of ImageContext.tsx. Arguments mirror the provider's
context: `auth` is `isAuthenticated && user`, `uid` the user id. Returns
the function's result, the provider state, the backend state and the
emitted toasts. The Object Store upload path is `user.id/timestamp-...`;
the file-name suffix is elided as nothing reads it. -/
def generateImage (auth : Bool) (uid : String) (st : ImageState) (db : Db)
    (prompt : String) (env : GenEnv) :
    Option GeneratedImage × ImageState × Db × List Toast :=
  if isBlank prompt then
    (none, st, db, [Toast.error "Please enter a prompt."])
  else if !env.preloadOk then
    (none, { st with isGenerating := false }, db,
     [Toast.error "Failed to generate image. Please try again."])
  else
    let url := buildImageUrl prompt env.category env.seed env.now
    let baseImage : GeneratedImage :=
      { id := toString env.now, prompt := prompt, imageUrl := url, createdAt := env.now }
    if auth then
      match env.persist with
      | .fail dbAfter =>
          (some baseImage,
           { st with generatedImages := baseImage :: st.generatedImages,
                     isGenerating := false },
           dbAfter,
           [Toast.error "Image generated but could not be saved to your account.",
            Toast.success "Image generated successfully!"])
      | .ok rowId signed =>
          let path := uid ++ "/" ++ toString env.now
          let row : ImageRow :=
            { id := rowId, prompt := prompt, storage_path := path,
              user_id := uid, created_at := env.now }
          let db1 : Db := { images := row :: db.images, storage := path :: db.storage }
          let newImage : GeneratedImage :=
            { id := rowId, prompt := prompt, imageUrl := signed, createdAt := env.now }
          let reloaded := loadUserImages db1 uid env.resolve env.reloadOk st
          (some newImage,
           { reloaded.fst with
               generatedImages := newImage :: reloaded.fst.generatedImages,
               isGenerating := false },
           db1,
           reloaded.snd ++ [Toast.success "Image generated successfully!"])
    else
      (some baseImage,
       { st with generatedImages := baseImage :: st.generatedImages,
                 isGenerating := false },
       db,
       [Toast.success "Image generated successfully!"])

/-- Outcome of the remote calls of `clearHistory`'s authenticated path:
the ledger select, the (log-only, best-effort) Object Store removal, and
the authoritative ledger delete. -/
inductive ClearOutcome
  | ok (storageOk : Bool)
  | selectErr
  | deleteErr (storageOk : Bool)
deriving DecidableEq, Repr

/-- `clearHistory` of ImageContext.tsx. In the authenticated path the
select is scoped per user by the external service (as in
`selectImagesDesc`); the storage removal error is only logged, the row
delete error aborts with an error toast and leaves the local history
untouched. The anonymous path just empties local state. -/
def clearHistory (auth : Bool) (uid : String) (st : ImageState) (db : Db)
    (oc : ClearOutcome) : ImageState × Db × List Toast :=
  if auth then
    match oc with
    | .selectErr =>
        (st, db, [Toast.error "Failed to clear history. Please try again."])
    | .deleteErr storageOk =>
        let paths := (db.images.filter (fun r => r.user_id == uid)).map (·.storage_path)
        let storage1 := if paths.isEmpty then db.storage
          else if storageOk then db.storage.filter (fun p => !paths.contains p)
          else db.storage
        (st, { db with storage := storage1 },
         [Toast.error "Failed to clear history. Please try again."])
    | .ok storageOk =>
        let paths := (db.images.filter (fun r => r.user_id == uid)).map (·.storage_path)
        let storage1 := if paths.isEmpty then db.storage
          else if storageOk then db.storage.filter (fun p => !paths.contains p)
          else db.storage
        ({ st with history := [] },
         { images := db.images.filter (fun r => !(r.user_id == uid)),
           storage := storage1 },
         [Toast.success "History cleared successfully!"])
  else
    ({ st with history := [] }, db, [Toast.success "History cleared successfully!"])

/-- The number of notifications one `generateImage` call emits: two when
an authenticated, non-blank, successfully pre-loaded generation hits a
persistence failure or a post-persist history-reload failure (a failure
toast followed by the success toast), one in every other path. -/
def genToastCount (auth : Bool) (prompt : String) (env : GenEnv) : Nat :=
  if auth && env.preloadOk && !(isBlank prompt)
      && (env.persist.failed || !env.reloadOk) then 2 else 1

/- ----------------------------------------------------------------
   Shared lemmas about the embedded operations
   ---------------------------------------------------------------- -/

theorem sortDesc_cons (x : ImageRow) (xs : List ImageRow) :
    sortDesc (x :: xs) = insertDesc x (sortDesc xs) := rfl

theorem mem_insertDesc {a r : ImageRow} {l : List ImageRow} :
    a ∈ insertDesc r l ↔ a = r ∨ a ∈ l := by
  induction l with
  | nil => simp [insertDesc]
  | cons x xs ih =>
      by_cases h : r.created_at ≤ x.created_at
      · simp [insertDesc, h, ih]; tauto
      · simp [insertDesc, h, ih]

theorem mem_sortDesc {a : ImageRow} {l : List ImageRow} :
    a ∈ sortDesc l ↔ a ∈ l := by
  induction l with
  | nil => simp [sortDesc]
  | cons x xs ih => rw [sortDesc_cons, mem_insertDesc, ih]; simp

theorem pairwise_insertDesc {r : ImageRow} {l : List ImageRow}
    (h : l.Pairwise (fun a b => b.created_at ≤ a.created_at)) :
    (insertDesc r l).Pairwise (fun a b => b.created_at ≤ a.created_at) := by
  induction l with
  | nil => simp [insertDesc]
  | cons x xs ih =>
      rcases List.pairwise_cons.mp h with ⟨hx, hxs⟩
      by_cases hc : r.created_at ≤ x.created_at
      · simp only [insertDesc, if_pos hc]
        refine List.pairwise_cons.mpr ⟨?_, ih hxs⟩
        intro b hb
        rcases mem_insertDesc.mp hb with rfl | hbxs
        · exact hc
        · exact hx b hbxs
      · simp only [insertDesc, if_neg hc]
        refine List.pairwise_cons.mpr ⟨?_, h⟩
        intro b hb
        rcases List.mem_cons.mp hb with rfl | hbxs
        · omega
        · have := hx b hbxs; omega

theorem pairwise_sortDesc (l : List ImageRow) :
    (sortDesc l).Pairwise (fun a b => b.created_at ≤ a.created_at) := by
  induction l with
  | nil => simp [sortDesc]
  | cons x xs ih => rw [sortDesc_cons]; exact pairwise_insertDesc ih

theorem formatRow_createdAt (resolve : String → Option String) (r : ImageRow) :
    (formatRow resolve r).createdAt = r.created_at := by
  unfold formatRow; cases resolve r.storage_path <;> rfl

theorem formatRow_prompt (resolve : String → Option String) (r : ImageRow) :
    (formatRow resolve r).prompt = r.prompt := by
  unfold formatRow; cases resolve r.storage_path <;> rfl

theorem formatRow_id (resolve : String → Option String) (r : ImageRow) :
    (formatRow resolve r).id = r.id := by
  unfold formatRow; cases resolve r.storage_path <;> rfl

theorem filter_not_eq_self_of_filter_eq_nil {l : List ImageRow} {uid : String}
    (h : l.filter (fun r => r.user_id == uid) = []) :
    l.filter (fun r => !(r.user_id == uid)) = l := by
  induction l with
  | nil => rfl
  | cons x xs ih =>
      by_cases hx : x.user_id == uid
      · rw [List.filter_cons_of_pos (by simpa using hx)] at h
        exact absurd h (by simp)
      · rw [List.filter_cons_of_neg (by simpa using hx)] at h
        rw [List.filter_cons_of_pos (by simpa using hx)]
        rw [ih h]

theorem buildImageUrl_ne_empty (p c : String) (s t : Nat) :
    buildImageUrl p c s t ≠ "" := by
  have hl : 0 < ("https://source.unsplash.com/featured/800x800/?" : String).length := by
    decide
  have hlen : 0 < (buildImageUrl p c s t).length := by
    simp only [buildImageUrl, String.length_append]
    omega
  intro h
  rw [h] at hlen
  exact absurd hlen (by decide)

/- ----------------------------------------------------------------
   Claim theorems
   ---------------------------------------------------------------- -/

/-- C1 (counterexample): a `logout` call whose remote sign-out returns an
error does NOT leave the Session Manager in the Anonymous state: the
function throws before reaching `setUser(null)`, so the cached user data
is still non-null afterwards, refuting the claim that the state is
Anonymous regardless of the remote outcome. -/
theorem logout_counterexample :
    (logout
        { user := some (fallbackAuthUser ⟨"u1", some "a@b.com", none⟩),
          isLoading := false,
          session := some ⟨"u1", some "a@b.com", none⟩ }
        (some "Network error")).fst.user ≠ none := by
  simp [logout]

/-- C1 (amended): after a `logout` whose remote sign-out succeeds, the
cached user data is null (Anonymous) and a success notification is
emitted; when the remote sign-out returns an error, `logout` emits a
failure notification, re-throws, and leaves the cached user data
unchanged (it is not cleared). -/
theorem logout_amended (s : AuthState) :
    (logout s none).fst.user = none ∧
    (logout s none).snd.fst = [Toast.success "Logged out successfully!"] ∧
    ∀ m, (logout s (some m)).fst.user = s.user ∧
      (logout s (some m)).snd.fst = [Toast.error m] ∧
      (logout s (some m)).snd.snd = true :=
  ⟨rfl, rfl, fun _ => ⟨rfl, rfl, rfl⟩⟩

/-- C4: for a blank (empty or all-whitespace) prompt, `generateImage`
returns no asset, emits exactly the validation notification, and leaves
the provider state (both the history list and the in-memory
generated-images list) and the backend untouched. -/
theorem generate_blank (a : Bool) (uid : String) (st : ImageState) (db : Db)
    (p : String) (env : GenEnv) (h : isBlank p = true) :
    generateImage a uid st db p env =
      (none, st, db, [Toast.error "Please enter a prompt."]) := by
  simp [generateImage, h]

/-- C4 (witness): the blank-prompt theorem applied to a whitespace-only
prompt on a concrete provider state. -/
theorem generate_blank_witness :
    generateImage false "u1" ⟨[], false, []⟩ ⟨[], []⟩ "   "
        ⟨0, "city", 0, true, .fail ⟨[], []⟩, fun _ => none, true⟩ =
      (none, ⟨[], false, []⟩, ⟨[], []⟩, [Toast.error "Please enter a prompt."]) :=
  generate_blank false "u1" ⟨[], false, []⟩ ⟨[], []⟩ "   "
    ⟨0, "city", 0, true, .fail ⟨[], []⟩, fun _ => none, true⟩ (by decide)

/-- C7: when the Profile Store has no row for the authenticated account
(or the fetch fails — both return null in `fetchUserProfile`), the
projected `AuthUser` still has `id` and `email` populated from the auth
data and every profile field at its safe placeholder: tier `"free"`,
credits `10`, and null for the nullable profile fields. -/
theorem profile_fallback (profiles : String → Option DbProfile)
    (su : SessionUser) (s : AuthState) (h : profiles su.id = none) :
    (setUserWithProfile profiles su s).user = some (fallbackAuthUser su) ∧
    (fallbackAuthUser su).id = su.id ∧
    (fallbackAuthUser su).email = su.email.getD "" ∧
    (fallbackAuthUser su).subscriptionTier = some "free" ∧
    (fallbackAuthUser su).credits = some 10 ∧
    (fallbackAuthUser su).avatarUrl = none ∧
    (fallbackAuthUser su).bio = none ∧
    (fallbackAuthUser su).website = none ∧
    (fallbackAuthUser su).location = none ∧
    (fallbackAuthUser su).lastLogin = none ∧
    (fallbackAuthUser su).createdAt = none := by
  refine ⟨?_, rfl, rfl, rfl, rfl, rfl, rfl, rfl, rfl, rfl, rfl⟩
  simp [setUserWithProfile, h]

/-- C7 (witness): the fallback theorem applied to a concrete session user
whose profile fetch finds nothing. -/
theorem profile_fallback_witness :
    (setUserWithProfile (fun _ => none) ⟨"u1", some "a@b.com", none⟩
        ⟨none, true, some ⟨"u1", some "a@b.com", none⟩⟩).user =
      some (fallbackAuthUser ⟨"u1", some "a@b.com", none⟩) ∧
    (fallbackAuthUser ⟨"u1", some "a@b.com", none⟩).subscriptionTier = some "free" ∧
    (fallbackAuthUser ⟨"u1", some "a@b.com", none⟩).credits = some 10 := by
  have h := profile_fallback (fun _ => none) ⟨"u1", some "a@b.com", none⟩
    ⟨none, true, some ⟨"u1", some "a@b.com", none⟩⟩ rfl
  exact ⟨h.1, h.2.2.2.1, h.2.2.2.2.1⟩

/-- C9: `refreshUser` with no session present returns the state unchanged
and performs zero Profile Store fetches, for every fetch oracle (so no
network call can influence it); with a session present it performs exactly
one fetch and replaces the cached user with the freshly projected one —
the fallback defaults when the profile row is missing (never nulling the
user), the mapped profile row otherwise. -/
theorem refreshUser_spec (s : AuthState) (profiles : String → Option DbProfile) :
    (s.session = none → refreshUser s profiles = (s, 0)) ∧
    (∀ su, s.session = some su →
      (refreshUser s profiles).snd = 1 ∧
      ((refreshUser s profiles).fst).session = s.session ∧
      ((refreshUser s profiles).fst).isLoading = s.isLoading ∧
      (profiles su.id = none →
        (refreshUser s profiles).fst.user = some (fallbackAuthUser su)) ∧
      (∀ row, profiles su.id = some row →
        (refreshUser s profiles).fst.user = some (profileToAuthUser row su)) ∧
      (refreshUser s profiles).fst.user ≠ none) := by
  constructor
  · intro h
    simp [refreshUser, h]
  · intro su h
    refine ⟨?_, ?_, ?_, ?_, ?_, ?_⟩
    · simp [refreshUser, h]
    · simp [refreshUser, h, setUserWithProfile]
      cases profiles su.id <;> simp
    · simp [refreshUser, h, setUserWithProfile]
      cases profiles su.id <;> simp
    · intro hp
      simp [refreshUser, h, setUserWithProfile, hp]
    · intro row hp
      simp [refreshUser, h, setUserWithProfile, hp]
    · simp [refreshUser, h, setUserWithProfile]
      cases profiles su.id <;> simp

/-- C9 (witness): `refreshUser` on a concrete session-less state is the
identity with zero fetches; on a concrete state with a session and a
missing profile it installs the fallback user. -/
theorem refreshUser_spec_witness :
    refreshUser ⟨none, false, none⟩ (fun _ => none) = (⟨none, false, none⟩, 0) ∧
    (refreshUser ⟨none, false, some ⟨"u1", some "a@b.com", none⟩⟩
        (fun _ => none)).fst.user =
      some (fallbackAuthUser ⟨"u1", some "a@b.com", none⟩) := by
  constructor
  · exact (refreshUser_spec ⟨none, false, none⟩ (fun _ => none)).1 rfl
  · exact ((refreshUser_spec ⟨none, false, some ⟨"u1", some "a@b.com", none⟩⟩
      (fun _ => none)).2 ⟨"u1", some "a@b.com", none⟩ rfl).2.2.2.1 rfl

/-- C10: `clearHistory` leaves the in-memory generated-images list (and
the in-progress flag) of the current session unchanged in every path —
authenticated or anonymous, and on every remote outcome; only the history
list is ever emptied. -/
theorem clearHistory_frame (a : Bool) (uid : String) (st : ImageState)
    (db : Db) (oc : ClearOutcome) :
    ((clearHistory a uid st db oc).fst).generatedImages = st.generatedImages ∧
    ((clearHistory a uid st db oc).fst).isGenerating = st.isGenerating ∧
    (((clearHistory a uid st db oc).fst).history = [] ∨
      ((clearHistory a uid st db oc).fst).history = st.history) := by
  cases a <;> rcases oc with b | _ | b <;> simp [clearHistory]

/-- C3: for an authenticated user, a successful `loadUserImages` presents
the history newest-first (descending `created_at`), every presented entry
comes from a ledger row owned by that user, every owned row is kept, and
each row resolves to its signed URL — or to the `/placeholder.svg`
fallback exactly when its signed-URL resolution fails — per row. -/
theorem loadHistory_ok (db : Db) (uid : String)
    (resolve : String → Option String) (st : ImageState) :
    ((loadUserImages db uid resolve true st).fst).history.Pairwise
        (fun a b => b.createdAt ≤ a.createdAt) ∧
    (∀ g ∈ ((loadUserImages db uid resolve true st).fst).history,
       ∃ r ∈ db.images, r.user_id = uid ∧ g = formatRow resolve r) ∧
    (∀ r ∈ db.images, r.user_id = uid →
       formatRow resolve r ∈ ((loadUserImages db uid resolve true st).fst).history) ∧
    (∀ r : ImageRow, resolve r.storage_path = none →
       formatRow resolve r =
         { id := r.id, prompt := r.prompt, imageUrl := "/placeholder.svg",
           createdAt := r.created_at }) ∧
    (∀ (r : ImageRow) (u : String), resolve r.storage_path = some u →
       formatRow resolve r =
         { id := r.id, prompt := r.prompt, imageUrl := u,
           createdAt := r.created_at }) := by
  have hhist : ((loadUserImages db uid resolve true st).fst).history =
      (sortDesc (db.images.filter (fun r => r.user_id == uid))).map
        (formatRow resolve) := by
    simp [loadUserImages, selectImagesDesc]
  refine ⟨?_, ?_, ?_, ?_, ?_⟩
  · rw [hhist]
    refine List.pairwise_map.mpr ?_
    exact (pairwise_sortDesc (db.images.filter (fun r => r.user_id == uid))).imp
      (fun hab => by simpa [formatRow_createdAt] using hab)
  · rw [hhist]
    intro g hg
    rcases List.mem_map.mp hg with ⟨r, hr, rfl⟩
    rcases List.mem_filter.mp (mem_sortDesc.mp hr) with ⟨hrm, hru⟩
    exact ⟨r, hrm, by simpa using hru, rfl⟩
  · rw [hhist]
    intro r hr hru
    exact List.mem_map_of_mem _
      (mem_sortDesc.mpr (List.mem_filter.mpr ⟨hr, by simp [hru]⟩))
  · intro r h
    simp [formatRow, h]
  · intro r u h
    simp [formatRow, h]

/-- C3 (witness): on a one-row ledger whose signed-URL resolution fails,
the owned row is presented with the placeholder URL. -/
theorem loadHistory_ok_witness :
    formatRow (fun _ => none) ⟨"r1", "a cat", "p1", "u1", 4⟩ ∈
      ((loadUserImages ⟨[⟨"r1", "a cat", "p1", "u1", 4⟩], ["p1"]⟩ "u1"
          (fun _ => none) true ⟨[], false, []⟩).fst).history ∧
    formatRow (fun _ => none) ⟨"r1", "a cat", "p1", "u1", 4⟩ =
      ⟨"r1", "a cat", "/placeholder.svg", 4⟩ := by
  have h := loadHistory_ok ⟨[⟨"r1", "a cat", "p1", "u1", 4⟩], ["p1"]⟩ "u1"
    (fun _ => none) ⟨[], false, []⟩
  exact ⟨h.2.2.1 ⟨"r1", "a cat", "p1", "u1", 4⟩ (by simp) rfl,
         h.2.2.2.1 ⟨"r1", "a cat", "p1", "u1", 4⟩ rfl⟩

/-- C5: starting from an empty history (no in-memory entries and no owned
ledger rows), `clearHistory` returns the very same provider and backend
state and emits the success notification — and so does a second call run
on the first call's result — in the authenticated path (for any storage
outcome) and in the anonymous path alike. -/
theorem clearHistory_idem (uid : String) (st : ImageState) (db : Db)
    (b1 b2 b3 b4 : Bool)
    (h1 : st.history = [])
    (h2 : db.images.filter (fun r => r.user_id == uid) = []) :
    clearHistory true uid st db (.ok b1) =
      (st, db, [Toast.success "History cleared successfully!"]) ∧
    clearHistory true uid (clearHistory true uid st db (.ok b1)).fst
        (clearHistory true uid st db (.ok b1)).snd.fst (.ok b2) =
      (st, db, [Toast.success "History cleared successfully!"]) ∧
    clearHistory false uid st db (.ok b3) =
      (st, db, [Toast.success "History cleared successfully!"]) ∧
    clearHistory false uid (clearHistory false uid st db (.ok b3)).fst
        (clearHistory false uid st db (.ok b3)).snd.fst (.ok b4) =
      (st, db, [Toast.success "History cleared successfully!"]) := by
  have hst : ({ st with history := [] } : ImageState) = st := by
    obtain ⟨gi, ig, hi⟩ := st
    have h1' : hi = [] := h1
    rw [h1']
  have key : ∀ b : Bool, clearHistory true uid st db (.ok b) =
      (st, db, [Toast.success "History cleared successfully!"]) := by
    intro b
    simp [clearHistory, h2, filter_not_eq_self_of_filter_eq_nil h2, hst]
  have keyAnon : ∀ b : Bool, clearHistory false uid st db (.ok b) =
      (st, db, [Toast.success "History cleared successfully!"]) := by
    intro b
    simp [clearHistory, hst]
  refine ⟨key b1, ?_, keyAnon b3, ?_⟩
  · rw [key b1]
    exact key b2
  · rw [keyAnon b3]
    exact keyAnon b4

/-- C5 (witness): two successive `clearHistory` calls on concrete empty
states, authenticated and anonymous. -/
theorem clearHistory_idem_witness :
    clearHistory true "u1" ⟨[], false, []⟩ ⟨[], []⟩ (.ok true) =
      (⟨[], false, []⟩, ⟨[], []⟩, [Toast.success "History cleared successfully!"]) ∧
    clearHistory false "u1" ⟨[], false, []⟩ ⟨[], []⟩ (.ok true) =
      (⟨[], false, []⟩, ⟨[], []⟩, [Toast.success "History cleared successfully!"]) := by
  have h := clearHistory_idem "u1" ⟨[], false, []⟩ ⟨[], []⟩ true true true true rfl rfl
  exact ⟨h.1, h.2.2.1⟩

/-- C6: a non-blank prompt generated while Authenticated whose persistence
succeeds yields an asset carrying the inserted row's id, the identical
prompt and the signed URL, and that asset appears — with identical prompt
and the URL its storage path resolves to — in the result of the next
successful `loadUserImages` call. -/
theorem generate_roundtrip (uid : String) (st st2 : ImageState) (db : Db)
    (p : String) (env : GenEnv) (rowId signed u : String)
    (resolve2 : String → Option String)
    (hp : isBlank p = false) (hpre : env.preloadOk = true)
    (hpers : env.persist = .ok rowId signed)
    (hres : resolve2 (uid ++ "/" ++ toString env.now) = some u) :
    (generateImage true uid st db p env).fst =
      some { id := rowId, prompt := p, imageUrl := signed, createdAt := env.now } ∧
    ({ id := rowId, prompt := p, imageUrl := u, createdAt := env.now } : GeneratedImage) ∈
      ((loadUserImages (generateImage true uid st db p env).snd.snd.fst uid
          resolve2 true st2).fst).history := by
  have hdb : (generateImage true uid st db p env).snd.snd.fst =
      { images := { id := rowId, prompt := p,
                    storage_path := uid ++ "/" ++ toString env.now,
                    user_id := uid, created_at := env.now } :: db.images,
        storage := (uid ++ "/" ++ toString env.now) :: db.storage } := by
    simp [generateImage, hp, hpre, hpers]
  constructor
  · simp [generateImage, hp, hpre, hpers]
  · rw [hdb]
    have h1 : ({ id := rowId, prompt := p,
                 storage_path := uid ++ "/" ++ toString env.now,
                 user_id := uid, created_at := env.now } : ImageRow) ∈
        (({ id := rowId, prompt := p,
            storage_path := uid ++ "/" ++ toString env.now,
            user_id := uid, created_at := env.now } : ImageRow) :: db.images).filter
          (fun r => r.user_id == uid) :=
      List.mem_filter.mpr ⟨List.mem_cons_self _ _, by simp⟩
    have h3 : formatRow resolve2
        { id := rowId, prompt := p,
          storage_path := uid ++ "/" ++ toString env.now,
          user_id := uid, created_at := env.now } =
        { id := rowId, prompt := p, imageUrl := u, createdAt := env.now } := by
      simp [formatRow, hres]
    have h4 := List.mem_map_of_mem (formatRow resolve2) (mem_sortDesc.mpr h1)
    rw [h3] at h4
    simpa [loadUserImages, selectImagesDesc] using h4

/-- C6 (witness): a concrete authenticated generation whose persistence
succeeds, followed by a concrete reload that finds it. -/
theorem generate_roundtrip_witness :
    (generateImage true "u1" ⟨[], false, []⟩ ⟨[], []⟩ "a red fox"
        ⟨7, "animal", 3, true, .ok "row1" "signed-url", (fun _ => some "next-url"), true⟩).fst =
      some ⟨"row1", "a red fox", "signed-url", 7⟩ ∧
    (⟨"row1", "a red fox", "next-url", 7⟩ : GeneratedImage) ∈
      ((loadUserImages
          (generateImage true "u1" ⟨[], false, []⟩ ⟨[], []⟩ "a red fox"
            ⟨7, "animal", 3, true, .ok "row1" "signed-url",
             (fun _ => some "next-url"), true⟩).snd.snd.fst
          "u1" (fun _ => some "next-url") true ⟨[], false, []⟩).fst).history :=
  generate_roundtrip "u1" ⟨[], false, []⟩ ⟨[], false, []⟩ ⟨[], []⟩ "a red fox"
    ⟨7, "animal", 3, true, .ok "row1" "signed-url", (fun _ => some "next-url"), true⟩
    "row1" "signed-url" "next-url" (fun _ => some "next-url")
    (by decide) rfl rfl rfl

/-- C8: a non-blank prompt generated while Anonymous (whose pre-load
resolves) returns a non-null asset with the identical prompt and a
non-empty image URL; the asset is prepended to the in-memory
generated-images list only — the backend (Object Store and Asset Ledger)
and the history are untouched. -/
theorem generate_anonymous (uid : String) (st : ImageState) (db : Db)
    (p : String) (env : GenEnv) (hp : isBlank p = false)
    (hpre : env.preloadOk = true) :
    (generateImage false uid st db p env).fst =
      some { id := toString env.now, prompt := p,
             imageUrl := buildImageUrl p env.category env.seed env.now,
             createdAt := env.now } ∧
    buildImageUrl p env.category env.seed env.now ≠ "" ∧
    (generateImage false uid st db p env).snd.fst.generatedImages =
      { id := toString env.now, prompt := p,
        imageUrl := buildImageUrl p env.category env.seed env.now,
        createdAt := env.now } :: st.generatedImages ∧
    (generateImage false uid st db p env).snd.fst.history = st.history ∧
    (generateImage false uid st db p env).snd.snd.fst = db := by
  refine ⟨?_, buildImageUrl_ne_empty p env.category env.seed env.now, ?_, ?_, ?_⟩ <;>
    simp [generateImage, hp, hpre]

/-- C8 (witness): a concrete anonymous generation of "a red fox". -/
theorem generate_anonymous_witness :
    (generateImage false "u1" ⟨[], false, []⟩ ⟨[], []⟩ "a red fox"
        ⟨7, "animal", 3, true, .fail ⟨[], []⟩, (fun _ => none), true⟩).fst =
      some ⟨toString (7 : Nat), "a red fox", buildImageUrl "a red fox" "animal" 3 7, 7⟩ ∧
    buildImageUrl "a red fox" "animal" 3 7 ≠ "" ∧
    (generateImage false "u1" ⟨[], false, []⟩ ⟨[], []⟩ "a red fox"
        ⟨7, "animal", 3, true, .fail ⟨[], []⟩, (fun _ => none), true⟩).snd.snd.fst =
      ⟨[], []⟩ := by
  have h := generate_anonymous "u1" ⟨[], false, []⟩ ⟨[], []⟩ "a red fox"
    ⟨7, "animal", 3, true, .fail ⟨[], []⟩, (fun _ => none), true⟩ (by decide) rfl
  exact ⟨h.1, h.2.1, h.2.2.2.2⟩

/-- C2 (counterexample): a `generateImage` call while Authenticated whose
persistence side path fails ends with TWO user-facing notifications (the
persistence-failure toast and then the success toast), refuting the claim
that every state-changing operation emits exactly one. -/
theorem notification_counterexample :
    ((generateImage true "u1" ⟨[], false, []⟩ ⟨[], []⟩ "a red fox"
        ⟨5, "animal", 3, true, .fail ⟨[], []⟩, (fun _ => none), true⟩).snd.snd.snd).length
      = 2 := by
  simp [generateImage, show isBlank "a red fox" = false from by decide]

/-- C2 (amended): `login`, `signup`, `logout` and `clearHistory` each emit
exactly one notification per invocation (success or failure, never both,
never none); `generateImage` emits exactly one, except that an
authenticated call whose persistence side path — or whose subsequent
history reload — fails emits exactly two: a failure notification followed
by the success notification. -/
theorem notification_discipline_amended :
    (∀ s r, ((login s r).snd.fst).length = 1) ∧
    (∀ r, ((signup r).fst).length = 1) ∧
    (∀ s e, ((logout s e).snd.fst).length = 1) ∧
    (∀ a uid st db oc, ((clearHistory a uid st db oc).snd.snd).length = 1) ∧
    (∀ a uid st db p env,
      ((generateImage a uid st db p env).snd.snd.snd).length = genToastCount a p env) ∧
    (∀ uid st db p env dbA, env.persist = .fail dbA → env.preloadOk = true →
      isBlank p = false →
      (generateImage true uid st db p env).snd.snd.snd =
        [Toast.error "Image generated but could not be saved to your account.",
         Toast.success "Image generated successfully!"]) := by
  refine ⟨?_, ?_, ?_, ?_, ?_, ?_⟩
  · intro s r
    cases r <;> rfl
  · intro r
    cases r with
    | ok ie c => cases ie <;> cases c <;> rfl
    | err m => rfl
  · intro s e
    cases e <;> rfl
  · intro a uid st db oc
    cases a <;> cases oc <;> simp [clearHistory]
  · intro a uid st db p env
    obtain ⟨now, cat, seed, pre, pers, res, rel⟩ := env
    cases hb : isBlank p with
    | true => simp [generateImage, genToastCount, hb]
    | false =>
        cases pre with
        | false => simp [generateImage, genToastCount, hb]
        | true =>
            cases a with
            | false => simp [generateImage, genToastCount, hb]
            | true =>
                cases pers with
                | ok rid sg =>
                    cases rel <;>
                      simp [generateImage, genToastCount, hb, loadUserImages,
                        PersistOutcome.failed]
                | fail dbA =>
                    simp [generateImage, genToastCount, hb, PersistOutcome.failed]
  · intro uid st db p env dbA hpers hpre hb
    simp [generateImage, hb, hpre, hpers]

/-- C2 (witness): the amended discipline applied to a concrete signup and
to a concrete authenticated generation whose persistence fails. -/
theorem notification_discipline_amended_witness :
    ((signup (.ok false true)).fst).length = 1 ∧
    (generateImage true "u1" ⟨[], false, []⟩ ⟨[], []⟩ "a red fox"
        ⟨5, "animal", 3, true, .fail ⟨[], []⟩, (fun _ => none), true⟩).snd.snd.snd =
      [Toast.error "Image generated but could not be saved to your account.",
       Toast.success "Image generated successfully!"] := by
  refine ⟨notification_discipline_amended.2.1 (.ok false true), ?_⟩
  exact notification_discipline_amended.2.2.2.2.2 "u1" ⟨[], false, []⟩ ⟨[], []⟩
    "a red fox" ⟨5, "animal", 3, true, .fail ⟨[], []⟩, (fun _ => none), true⟩
    ⟨[], []⟩ rfl rfl (by decide)
